import Mathlib

/-!
Verification development for the talent-matching core of the repository
(business-rules scorer, multi-stage matching pipeline, batch executor,
progress tracker, event stream bus).  Python source files are embedded
shallowly: dictionaries with string defaults become structures of strings
(an absent key and the empty string are indistinguishable through
`dict.get(k, "")`), Python `int` becomes `Int`/`Nat`, float arithmetic is
modelled by exact rationals, and fallible collaborator calls are modelled
as explicit `Option`/`Except` parameters.
-/

namespace TalentMatch

/-! ## String helpers

Python's substring operator `needle in hay` and `str.lower` over the
character lists of the strings involved. -/

/-- `needle` occurs at the head of `hay` (character lists). -/
def leadsWith : List Char → List Char → Bool
  | [], _ => true
  | _ :: _, [] => false
  | a :: as, b :: bs => a == b && leadsWith as bs

/-- `needle` occurs somewhere inside `hay` (character lists). -/
def hasSubList (needle : List Char) : List Char → Bool
  | [] => leadsWith needle []
  | c :: rest => leadsWith needle (c :: rest) || hasSubList needle rest

/-- Python `needle in hay` on strings (contiguous substring test). -/
def substrOf (needle hay : String) : Bool :=
  hasSubList needle.toList hay.toList

/-- Python `str.lower`.  (Semantically `String.toLower`, but expressed as a
structural map over the character list so that it reduces in the kernel;
`Char.toLower` lowercases ASCII letters and leaves CJK characters
unchanged, as Python does on the texts involved.) -/
def lowerStr (s : String) : String := String.mk (s.toList.map Char.toLower)

/-- Numeric value of a digit run (most significant digit first). -/
def digitsVal (cs : List Char) : Nat :=
  cs.foldl (fun a c => a * 10 + (c.toNat - 48)) 0

/-- All maximal digit runs of a character list, as numbers, in order;
Python `re.findall(r"\d+", text)` composed with `int`.  The first
argument accumulates the digits of the run currently being read
(in reverse). -/
def digitRunsAux : List Char → List Char → List Nat
  | acc, [] => if acc.isEmpty then [] else [digitsVal acc.reverse]
  | acc, c :: rest =>
    if c.isDigit then digitRunsAux (c :: acc) rest
    else if acc.isEmpty then digitRunsAux [] rest
    else digitsVal acc.reverse :: digitRunsAux [] rest

/-- All numbers embedded in a string, in order of occurrence. -/
def digitRuns (s : String) : List Nat := digitRunsAux [] s.toList

/-- Leftmost-match scan: try the matcher at every position, left to right;
`re.search` for the fixed patterns below, which never match the empty
string. -/
def scanFirst (m : List Char → Option Nat) : List Char → Option Nat
  | [] => none
  | c :: rest =>
    match m (c :: rest) with
    | some n => some n
    | none => scanFirst m rest

/-- Match `(\d+)` at the head: the maximal leading digit run and the rest. -/
def digits1 (l : List Char) : Option (Nat × List Char) :=
  let ds := l.takeWhile Char.isDigit
  if ds.isEmpty then none else some (digitsVal ds, l.dropWhile Char.isDigit)

/-- Match a literal character sequence at the head, returning the rest. -/
def stripLit : List Char → List Char → Option (List Char)
  | [], l => some l
  | _ :: _, [] => none
  | p :: ps, c :: cs => if c == p then stripLit ps cs else none

/-- Drop `\s*` at the head. -/
def dropSpaces (l : List Char) : List Char := l.dropWhile Char.isWhitespace

/-! ## `BusinessRulesScorer` (src/src/services/business_rules_scorer.py)

The constructor's `skill_keywords` category table, the hard-filter
conjunction, and the three business sub-scores. -/

/-- `BusinessRulesScorer.skill_keywords` (business_rules_scorer.py:18). -/
def skill_keywords : List (String × List String) :=
  [ ("java", ["java", "spring", "springboot", "maven", "gradle"]),
    ("python", ["python", "django", "flask", "fastapi", "pandas", "numpy"]),
    ("javascript", ["javascript", "js", "node", "nodejs", "react", "vue", "angular"]),
    ("web", ["html", "css", "frontend", "backend", "fullstack", "web开发"]),
    ("database", ["mysql", "postgresql", "mongodb", "redis", "sql", "数据库"]),
    ("cloud", ["aws", "azure", "kubernetes", "docker", "云计算", "微服务"]),
    ("ai", ["机器学习", "深度学习", "tensorflow", "pytorch", "nlp", "cv", "人工智能"]) ]

/-- A candidate record as read through `candidate.get(field, "")`:
an absent attribute is the empty string. -/
structure Candidate where
  location_preference : String := ""
  experience_years : String := ""
  expected_salary : String := ""
  skills : String := ""
  education : String := ""
  certificates : String := ""
deriving DecidableEq, Repr

/-- A project record as read by the scorer (`project.get(field, "")`). -/
structure Project where
  tech_requirements : String := ""
  work_style : String := ""
deriving DecidableEq, Repr

/-- The hard-filter `requirements` map.  `location` and `salary_range`
are read with default `""`; `min_experience_years` is read with
`dict.get` (default `None`) and tested for Python truthiness, so `none`
and `some 0` both disable the predicate; `required_skills` defaults to
the empty list. -/
structure Requirements where
  location : String := ""
  min_experience_years : Option Int := none
  salary_range : String := ""
  required_skills : List String := []
deriving DecidableEq, Repr

/-- Match `(\d+)\s*年` at the head of the list. -/
def matchNumYear (l : List Char) : Option Nat :=
  match digits1 l with
  | none => none
  | some (n, rest) =>
    match dropSpaces rest with
    | y :: _ => if y == '年' then some n else none
    | [] => none

/-- Match `(\d+)\s*以上` at the head of the list. -/
def matchNumAbove (l : List Char) : Option Nat :=
  match digits1 l with
  | none => none
  | some (n, rest) =>
    match stripLit ['以', '上'] (dropSpaces rest) with
    | some _ => some n
    | none => none

/-- Modelled from the spec: `BusinessRulesScorer._extract_experience_years`
(business_rules_scorer.py:205).  The source's regex-replacement branch is
lexically broken (`r"\"` on line 216 never closes the string literal), so
the function body has no defined Python semantics; the spec's ordered
first-match rules are used instead: `"N年"`→N (which also yields the upper
bound B on `"A-B年"`, since the leftmost `digits+年` occurrence in
`A-B年` is `B年`); `"N以上"`→N; seniority keywords senior→5, junior→1,
mid→3; else the first embedded integer; else 0.  Every rule returns a
non-negative integer, matching the source's `int` return paths. -/
def extract_experience_years (exp_text : String) : Nat :=
  if exp_text = "" then 0
  else
    let t := lowerStr exp_text
    let l := t.toList
    match scanFirst matchNumYear l with
    | some n => n
    | none =>
      match scanFirst matchNumAbove l with
      | some n => n
      | none =>
        if substrOf "senior" t || substrOf "高级" t || substrOf "资深" t then 5
        else if substrOf "junior" t || substrOf "初级" t || substrOf "新人" t then 1
        else if substrOf "mid" t || substrOf "中级" t then 3
        else (digitRuns t).headD 0

/-- Match `(\d+)\s*年以上` at the head of the list
(`BusinessRulesScorer._extract_required_experience`, first pattern). -/
def matchNumYearAbove (l : List Char) : Option Nat :=
  match digits1 l with
  | none => none
  | some (n, rest) =>
    match stripLit ['年', '以', '上'] (dropSpaces rest) with
    | some _ => some n
    | none => none

/-- Match `(\d+)\s*\+\s*年` at the head of the list. -/
def matchNumPlusYear (l : List Char) : Option Nat :=
  match digits1 l with
  | none => none
  | some (n, rest) =>
    match stripLit ['+'] (dropSpaces rest) with
    | none => none
    | some rest2 =>
      match stripLit ['年'] (dropSpaces rest2) with
      | some _ => some n
      | none => none

/-- Match `minimum\s*(\d+)\s*year` at the head of the list. -/
def matchMinimumYear (l : List Char) : Option Nat :=
  match stripLit "minimum".toList l with
  | none => none
  | some rest =>
    match digits1 (dropSpaces rest) with
    | none => none
    | some (n, rest2) =>
      match stripLit "year".toList (dropSpaces rest2) with
      | some _ => some n
      | none => none

/-- Match `至少\s*(\d+)\s*年` at the head of the list. -/
def matchAtLeastYear (l : List Char) : Option Nat :=
  match stripLit ['至', '少'] l with
  | none => none
  | some rest =>
    match digits1 (dropSpaces rest) with
    | none => none
    | some (n, rest2) =>
      match stripLit ['年'] (dropSpaces rest2) with
      | some _ => some n
      | none => none

/-- `BusinessRulesScorer._extract_required_experience`
(business_rules_scorer.py:233): try the four patterns in order on the
lowercased text, then infer from seniority keywords, else 0. -/
def extract_required_experience (requirements : String) : Nat :=
  if requirements = "" then 0
  else
    let t := lowerStr requirements
    let l := t.toList
    match scanFirst matchNumYearAbove l with
    | some n => n
    | none =>
      match scanFirst matchNumPlusYear l with
      | some n => n
      | none =>
        match scanFirst matchMinimumYear l with
        | some n => n
        | none =>
          match scanFirst matchAtLeastYear l with
          | some n => n
          | none =>
            if substrOf "senior" t || substrOf "高级" t || substrOf "资深" t then 5
            else if substrOf "junior" t || substrOf "初级" t || substrOf "新人" t then 1
            else if substrOf "mid" t || substrOf "中级" t then 3
            else 0

/-- `BusinessRulesScorer._location_matches` (business_rules_scorer.py:200):
case-insensitive containment in either direction (both arguments arrive
already lowercased). -/
def location_matches (candidate_location required_location : String) : Bool :=
  substrOf required_location candidate_location ||
    substrOf candidate_location required_location

/-- `BusinessRulesScorer._extract_salary_min` (business_rules_scorer.py:275):
first number embedded in the text, default 0. -/
def extract_salary_min (salary_text : String) : Nat :=
  (digitRuns (lowerStr salary_text)).headD 0

/-- `BusinessRulesScorer._extract_salary_max` (business_rules_scorer.py:282):
last number embedded in the text, default 999. -/
def extract_salary_max (salary_text : String) : Nat :=
  (digitRuns (lowerStr salary_text)).getLastD 999

/-- `BusinessRulesScorer._salary_compatible` (business_rules_scorer.py:263):
candidate minimum expectation at most the budget maximum.  (The source's
`except` branch is unreachable: integer parsing of digit runs cannot
fail.) -/
def salary_compatible (candidate_salary budget_range : String) : Bool :=
  extract_salary_min candidate_salary ≤ extract_salary_max budget_range

/-- `BusinessRulesScorer._has_skill` (business_rules_scorer.py:289): if the
required skill is listed verbatim in some category of `skill_keywords`,
the first such category decides (any of its keywords occurring in the
candidate's skills text); otherwise plain substring containment. -/
def has_skill (candidate_skills required_skill : String) : Bool :=
  match skill_keywords.find? (fun kv => kv.2.contains required_skill) with
  | some kv => kv.2.any (fun k => substrOf k candidate_skills)
  | none => substrOf required_skill candidate_skills

/-- Location predicate of `BusinessRulesScorer._passes_hard_filters`
(business_rules_scorer.py:52): skipped when either lowercased side is
empty. -/
def passes_location (c : Candidate) (r : Requirements) : Bool :=
  let required_location := lowerStr r.location
  let candidate_location := lowerStr c.location_preference
  if required_location ≠ "" && candidate_location ≠ "" then
    location_matches candidate_location required_location
  else true

/-- Minimum-experience predicate (business_rules_scorer.py:61): active
whenever the requirement value is truthy; the candidate side is always
parsed (an absent attribute parses as 0 years). -/
def passes_experience (c : Candidate) (r : Requirements) : Bool :=
  match r.min_experience_years with
  | none => true
  | some m =>
    if m ≠ 0 then
      decide ((extract_experience_years c.experience_years : Int) ≥ m)
    else true

/-- Salary predicate (business_rules_scorer.py:69): skipped when either
side is empty/absent. -/
def passes_salary (c : Candidate) (r : Requirements) : Bool :=
  if r.salary_range ≠ "" && c.expected_salary ≠ "" then
    salary_compatible c.expected_salary r.salary_range
  else true

/-- Required-skills predicate (business_rules_scorer.py:77): every required
skill must be found in the candidate's (lowercased, possibly empty) skills
text. -/
def passes_skills (c : Candidate) (r : Requirements) : Bool :=
  r.required_skills.all (fun s => has_skill (lowerStr c.skills) (lowerStr s))

/-- `BusinessRulesScorer._passes_hard_filters` (business_rules_scorer.py:49):
the conjunction of the four predicates (the source returns `False` at the
first failing predicate; the conjunction is equivalent because each
predicate is pure). -/
def passes_hard_filters (c : Candidate) (r : Requirements) : Bool :=
  passes_location c r && passes_experience c r &&
    passes_salary c r && passes_skills c r

/-- `BusinessRulesScorer.apply_hard_filters` (business_rules_scorer.py:38). -/
def apply_hard_filters (candidates : List Candidate) (r : Requirements) :
    List Candidate :=
  candidates.filter (fun c => passes_hard_filters c r)

/-- Categories of `skill_keywords` that the (lowercased) project
requirements text mentions: `total_requirements` in
`BusinessRulesScorer._calculate_skill_score` (business_rules_scorer.py:116). -/
def requiredCategories (project_requirements : String) : Nat :=
  (skill_keywords.filter
    (fun kv => kv.2.any (fun k => substrOf k project_requirements))).length

/-- Required categories that the (lowercased) candidate skills text also
covers: `total_matches` in `_calculate_skill_score`. -/
def matchedCategories (candidate_skills project_requirements : String) : Nat :=
  (skill_keywords.filter
    (fun kv => kv.2.any (fun k => substrOf k project_requirements) &&
               kv.2.any (fun k => substrOf k candidate_skills))).length

/-- `BusinessRulesScorer._calculate_skill_score`
(business_rules_scorer.py:116).  `int(match_percentage * 40)` truncates a
non-negative float, i.e. takes the floor; the division is modelled by
exact rationals (for the reachable values `matched ≤ required ≤ 7` the
float and rational floors coincide). -/
def calculate_skill_score (candidate_skills project_requirements : String) : Nat :=
  if candidate_skills = "" || project_requirements = "" then 0
  else
    let cs := lowerStr candidate_skills
    let pr := lowerStr project_requirements
    let req := requiredCategories pr
    let mat := matchedCategories cs pr
    if req = 0 then 20
    else min 40 (Int.toNat ⌊(mat : ℚ) / (req : ℚ) * 40⌋)

/-- `BusinessRulesScorer._calculate_experience_score`
(business_rules_scorer.py:145).  `required_years * 1.5` is exact in
floats; `int(ratio * 20)` truncates a non-negative value, i.e. floor. -/
def calculate_experience_score (candidate_exp project_requirements : String) : Nat :=
  let candidate_years := extract_experience_years candidate_exp
  let required_years := extract_required_experience project_requirements
  if required_years = 0 then 15
  else if candidate_years ≥ required_years then
    if (candidate_years : ℚ) ≥ (required_years : ℚ) * 3 / 2 then 30 else 25
  else
    Int.toNat (max 0 ⌊(candidate_years : ℚ) / (required_years : ℚ) * 20⌋)

/-- `BusinessRulesScorer._calculate_other_factors_score`
(business_rules_scorer.py:167): work-style bonus, education tier bonus,
certificate bonus, capped at 30. -/
def calculate_other_factors_score (c : Candidate) (p : Project) : Nat :=
  let ws := lowerStr p.work_style
  let workScore :=
    if substrOf "远程" ws || substrOf "remote" ws then 10
    else if substrOf "现场" ws || substrOf "on-site" ws then 5
    else 0
  let edu := lowerStr c.education
  let eduScore :=
    if substrOf "硕士" edu || substrOf "master" edu then 10
    else if substrOf "本科" edu || substrOf "bachelor" edu then 8
    else if substrOf "大专" edu || substrOf "专科" edu then 6
    else 0
  let certs := lowerStr c.certificates
  let certScore :=
    if certs ≠ "" then
      if ["aws", "azure", "google cloud", "kubernetes"].any
          (fun cert => substrOf cert certs) then 10
      else if ["pmp", "scrum", "agile"].any (fun cert => substrOf cert certs) then 8
      else 5
    else 0
  min 30 (workScore + eduScore + certScore)

/-- `BusinessRulesScorer.calculate_business_score`
(business_rules_scorer.py:87): sum of the three sub-scores.  (The second
component of the source's returned pair is a fixed-format reason string
listing the three sub-scores; it carries no further information and is
not modelled.) -/
def calculate_business_score (c : Candidate) (p : Project) : Nat :=
  calculate_skill_score c.skills p.tech_requirements
    + calculate_experience_score c.experience_years p.tech_requirements
    + calculate_other_factors_score c p

/-! ## `MatchingEngine` (src/src/nodes/matching_nodes.py)

Pipeline items are the dictionaries returned by the vector-search
collaborator: identifier keys, display keys, similarity scores, and the
candidate attributes consumed by the business scorer.  An absent key is
`none`; `item.get(k, d)` becomes `Option.getD`. -/

/-- A pipeline item (candidate/project dictionary plus search scores). -/
structure Item where
  id : Option String := none
  point_id : Option String := none
  name : Option String := none
  title : Option String := none
  similarity_score : Option ℚ := none
  final_score : Option ℚ := none
  cand : Candidate := {}
deriving DecidableEq, Repr

/-- `MatchResult` (src/src/models.py): `{id, name, score, reason}`. -/
structure MatchResult where
  id : String
  name : String
  score : Int
  reason : String
deriving DecidableEq, Repr

/-- The `GraphState` fields the matching nodes read and write.  The
wall-clock and LLM-object fields are not modelled; exception text inside
recorded error strings is elided (only the fixed message prefix is
kept). -/
structure MatchState where
  query : String := ""
  match_type : String := ""
  match_query_id : String := ""
  project_info : Option Project := none
  hard_filtered_items : List Item := []
  prefiltered_items : List Item := []
  match_results : List MatchResult := []
  errors : List String := []
  processing_log : List String := []
deriving DecidableEq, Repr

/-- `item.get("id", item.get("point_id"))` as used to build
`hard_filtered_ids` and `result_id` in `vector_prefilter_candidates`
(matching_nodes.py:192,196). -/
def itemKey (i : Item) : Option String :=
  i.id.orElse (fun _ => i.point_id)

/-- `MatchingEngine.vector_prefilter_candidates` (matching_nodes.py:164).
The vector-search collaborator is the parameter `search` (query, limit,
score threshold); `Except.error` models `search_candidates` raising.
When vector search is disabled the hard-filtered list is passed through
unchanged (no cap); with no query, or on search failure, the first 10
hard-filtered items; otherwise the search runs with limit 20 and
threshold 0.6 and its results are intersected (by identifier) with the
hard-filtered items, capped at 10. -/
def vector_prefilter_candidates (use_vector_search : Bool)
    (search : String → Nat → ℚ → Except Unit (List Item))
    (st : MatchState) : MatchState :=
  let st := { st with processing_log := st.processing_log ++ ["执行向量预筛选"] }
  if !use_vector_search then
    { st with
      prefiltered_items := st.hard_filtered_items
      processing_log := st.processing_log ++ ["向量搜索未启用，使用硬条件过滤结果"] }
  else if st.query = "" then
    { st with
      prefiltered_items := st.hard_filtered_items.take 10
      processing_log := st.processing_log ++ ["无查询条件，直接使用硬条件过滤结果"] }
  else
    match search st.query 20 (6 / 10) with
    | Except.error _ =>
      { st with
        errors := st.errors ++ ["向量预筛选失败"]
        prefiltered_items := st.hard_filtered_items.take 10 }
    | Except.ok vector_results =>
      let hard_filtered_ids := st.hard_filtered_items.map itemKey
      let vector_filtered :=
        vector_results.filter (fun r => hard_filtered_ids.contains (itemKey r))
      { st with
        prefiltered_items := vector_filtered.take 10
        processing_log := st.processing_log ++ ["向量预筛选完成"] }

/-- Modelled from the spec: `Config.MATCHING_WEIGHTS["HYBRID_VECTOR"]`.
`hybrid_matching` reads the weight triple from `Config.MATCHING_WEIGHTS`,
but no such attribute is defined anywhere under the repository's `src/`;
the spec gives the default split 0.3/0.4/0.3. -/
def MATCHING_WEIGHTS_HYBRID_VECTOR : ℚ := 3 / 10

/-- Modelled from the spec: `Config.MATCHING_WEIGHTS["HYBRID_AI"]`
(see `MATCHING_WEIGHTS_HYBRID_VECTOR`). -/
def MATCHING_WEIGHTS_HYBRID_AI : ℚ := 4 / 10

/-- Modelled from the spec: `Config.MATCHING_WEIGHTS["HYBRID_BUSINESS"]`
(see `MATCHING_WEIGHTS_HYBRID_VECTOR`). -/
def MATCHING_WEIGHTS_HYBRID_BUSINESS : ℚ := 3 / 10

/-- Python `int()` applied to a (here: rational-modelled) float:
truncation toward zero. -/
def truncQ (q : ℚ) : Int := if q < 0 then -⌊-q⌋ else ⌊q⌋

/-- The vector component of a hybrid score (matching_nodes.py:269):
`item.get("final_score", item.get("similarity_score", 0.7)) * 100`. -/
def hybrid_vector_score (i : Item) : ℚ :=
  (i.final_score.getD (i.similarity_score.getD (7 / 10))) * 100

/-- The combined hybrid score (matching_nodes.py:280):
`vector_score * Wv + ai_score * Wa + business_score * Wb`. -/
def hybrid_final_score (ai_score business_score : Int) (i : Item) : ℚ :=
  hybrid_vector_score i * MATCHING_WEIGHTS_HYBRID_VECTOR
    + (ai_score : ℚ) * MATCHING_WEIGHTS_HYBRID_AI
    + (business_score : ℚ) * MATCHING_WEIGHTS_HYBRID_BUSINESS

/-- One iteration of the `hybrid_matching` loop (matching_nodes.py:262).
`ai` is the relevance-service collaborator `_get_ai_score`, which itself
returns the neutral score 60 when the state has no project info (and on
its own failure); `calculate_business_score` receives `{}` for a missing
project.  The reason string's float formatting is elided (fixed prefix
kept). -/
def hybrid_match_result (ai : Item → Int) (project_info : Option Project)
    (i : Item) : MatchResult :=
  let ai_score : Int := match project_info with | none => 60 | some _ => ai i
  let business_score : Int := calculate_business_score i.cand (project_info.getD {})
  { id := (i.point_id.orElse (fun _ => i.id)).getD "unknown"
    name := (i.name.orElse (fun _ => i.title)).getD "未知"
    score := truncQ (hybrid_final_score ai_score business_score i)
    reason := "混合评分" }

/-- Stable insertion of a match result into a descending-sorted list
(later elements never overtake earlier ones of equal score), matching
Python's stable `list.sort(key=score, reverse=True)`. -/
def insertDesc (m : MatchResult) : List MatchResult → List MatchResult
  | [] => [m]
  | h :: t => if m.score ≥ h.score then m :: h :: t else h :: insertDesc m t

/-- Stable descending sort by score. -/
def sortDesc : List MatchResult → List MatchResult
  | [] => []
  | h :: t => insertDesc h (sortDesc t)

/-- `MatchingEngine.hybrid_matching` (matching_nodes.py:248): score the
first 5 prefiltered items with the three combined signals and sort
descending.  (The `except` degrade path to vector-only scoring is not
reachable in this pure model.) -/
def hybrid_matching (ai : Item → Int) (st : MatchState) : MatchState :=
  let st1 := { st with processing_log := st.processing_log ++ ["执行混合评分匹配"] }
  if st1.prefiltered_items = [] then
    { st1 with
      match_results := []
      processing_log := st1.processing_log ++ ["无预筛选项目，跳过混合匹配"] }
  else
    let hybrid_matches :=
      (st1.prefiltered_items.take 5).map (hybrid_match_result ai st1.project_info)
    { st1 with
      match_results := sortDesc hybrid_matches
      processing_log := st1.processing_log ++ ["混合评分匹配完成"] }

/-- The fallback ranking of `MatchingEngine.ai_matching`
(matching_nodes.py:445): the first 3 prefiltered items in original order
with scores `60 - i*5` and a fixed reason. -/
def fallback_matches (items : List Item) : List MatchResult :=
  (items.take 3).enum.map (fun p =>
    { id := p.2.id.getD ("fallback_" ++ toString p.1)
      name := (p.2.name.orElse (fun _ => p.2.title)).getD "未知"
      score := 60 - (p.1 : Int) * 5
      reason := "系统备用匹配结果" })

/-- `max_retries` in `MatchingEngine.ai_matching` (matching_nodes.py:407). -/
def max_retries : Nat := 3

/-- The retry loop of `ai_matching` (matching_nodes.py:408): `oracle n`
is the outcome of the n-th `chain.invoke` together with response
validation (`none` models any exception in the `try` block; `some ms`
the validated match list).  `remaining` counts the attempts still allowed
after the current one (`attempt < max_retries - 1` in the source); the
returned number is how many attempts were made. -/
def ai_matching_go (oracle : Nat → Option (List MatchResult)) (st : MatchState) :
    Nat → Nat → MatchState × Nat
  | attempt, remaining =>
    match oracle attempt with
    | some ms =>
      ({ st with
         match_results := ms
         processing_log := st.processing_log ++ ["AI匹配完成"] }, attempt + 1)
    | none =>
      match remaining with
      | r + 1 => ai_matching_go oracle st (attempt + 1) r
      | 0 =>
        ({ st with
           errors := st.errors ++ ["AI匹配失败"]
           match_results := fallback_matches st.prefiltered_items
           processing_log := st.processing_log ++ ["使用备用匹配结果"] }, attempt + 1)

/-- `MatchingEngine.ai_matching` (matching_nodes.py:368).  Returns the
updated state and the number of attempts made against the relevance
collaborator. -/
def ai_matching (oracle : Nat → Option (List MatchResult)) (st : MatchState) :
    MatchState × Nat :=
  if st.prefiltered_items = [] then
    ({ st with
       match_results := []
       processing_log := st.processing_log ++ ["无预筛选项目，跳过AI匹配"] }, 0)
  else ai_matching_go oracle st 0 (max_retries - 1)

/-! ## `BatchProcessor` (src/src/services/batch_processor.py)

The per-item function is `f : α → Option β`: `none` is a caught
per-item exception (the source logs it and appends `None`).  The sync
variant collects a batch with `concurrent.futures.as_completed`, i.e. in
completion order: that order is the parameter `completion_order`, giving
for each batch number the order (a permutation of the batch's indices)
in which its futures complete.  The async variant collects with
`asyncio.gather`, which returns results in submission order. -/

/-- Consecutive batches of `n` items (`items[i:i+batch_size]` for
`i in range(0, total, batch_size)`); the fuel argument is the list
length, enough whenever `n > 0` (a non-positive `batch_size` raises in
Python and is outside the model). -/
def chunksAux (n : Nat) : Nat → List α → List (List α)
  | 0, _ => []
  | _, [] => []
  | fuel + 1, l => l.take n :: chunksAux n fuel (l.drop n)

/-- Split a list into consecutive batches of `n`. -/
def chunks (n : Nat) (l : List α) : List (List α) := chunksAux n l.length l

/-- Collect the elements of `l` in the order given by the index list
`ord` (the completion order of a batch). -/
def apply_order (ord : List Nat) (l : List α) : List α :=
  ord.filterMap (fun i => l[i]?)

/-- `BatchProcessor.process_batch_sync` (batch_processor.py:22): per
batch, submit every item, then append results in completion order. -/
def process_batch_sync (f : α → Option β) (batch_size : Nat)
    (completion_order : Nat → List Nat) (items : List α) : List (Option β) :=
  ((chunks batch_size items).enum.map
    (fun p => apply_order (completion_order p.1) (p.2.map f))).flatten

/-- `BatchProcessor.process_batch_async` (batch_processor.py:66): per
batch, `asyncio.gather` preserves submission order (per-item exceptions
are already mapped to `None` inside `process_with_semaphore`). -/
def process_batch_async (f : α → Option β) (batch_size : Nat)
    (items : List α) : List (Option β) :=
  ((chunks batch_size items).map (fun batch => batch.map f)).flatten

/-! ## `ProgressTracker` (src/src/services/progress_service.py)

Wall-clock fields (`start_time`, `elapsed_time`, `estimated_remaining`)
and the callback list are not modelled; `percentage` is the only derived
field the claims touch.  `ProgressInfo.__post_init__` recomputes
`percentage` only when `total > 0`, otherwise the previous value is
kept. -/

/-- `ProgressStage` (progress_service.py:16). -/
inductive ProgressStage
  | initialization
  | email_classification
  | information_extraction
  | vector_generation
  | database_storage
  | candidate_filtering
  | matching_analysis
  | result_generation
  | completion
deriving DecidableEq, Repr

/-- Python `round(x, 2)` on the exact rational value (round-half-up
models the rounding; the two conventions agree away from exact
half-hundredth ties, and all values appearing in the claims are away
from ties). -/
def round2 (q : ℚ) : ℚ := ((round (q * 100) : ℤ) : ℚ) / 100

/-- The `percentage` update of `ProgressInfo.__post_init__`
(progress_service.py:44): recomputed only when `total > 0`, else the old
value is kept. -/
def post_init_percentage (current total : Int) (old : ℚ) : ℚ :=
  if 0 < total then round2 ((current : ℚ) / (total : ℚ) * 100) else old

/-- `ProgressInfo` (progress_service.py:28), restricted to the modelled
fields. -/
structure ProgressInfo where
  stage : ProgressStage
  current : Int
  total : Int
  message : String := ""
  percentage : ℚ := 0
deriving DecidableEq, Repr

/-- Construction of a `ProgressInfo` as in `start_stage`: `current = 0`
and `__post_init__` applied to the default percentage 0. -/
def mkProgressInfo (stage : ProgressStage) (current total : Int)
    (message : String) : ProgressInfo :=
  { stage := stage
    current := current
    total := total
    message := message
    percentage := post_init_percentage current total 0 }

/-- `ProgressTracker` (progress_service.py:53), restricted to the
modelled fields (`stages_progress` is the stage map). -/
structure ProgressTracker where
  session_id : String := ""
  total_stages : Nat := 1
  current_stage : Nat := 0
  stages_progress : ProgressStage → Option ProgressInfo := fun _ => none
  is_completed : Bool := false

/-- `ProgressTracker.start_stage` (progress_service.py:76). -/
def start_stage (t : ProgressTracker) (stage : ProgressStage)
    (total_items : Int) (message : String) : ProgressTracker :=
  { t with
    current_stage := t.current_stage + 1
    stages_progress := fun s =>
      if s = stage then some (mkProgressInfo stage 0 total_items message)
      else t.stages_progress s }

/-- `ProgressTracker.update_progress` (progress_service.py:98): if the
stage is missing, auto-create it via `start_stage(stage, current,
message)` — the reported progress value becomes the new stage's `total`;
otherwise overwrite `current` with the reported value (no clamping) and
rerun `__post_init__`. -/
def update_progress (t : ProgressTracker) (stage : ProgressStage)
    (current : Int) (message : String) : ProgressTracker :=
  match t.stages_progress stage with
  | none => start_stage t stage current message
  | some p =>
    let p' := { p with
                current := current
                message := if message ≠ "" then message else p.message
                percentage := post_init_percentage current p.total p.percentage }
    { t with stages_progress := fun s =>
        if s = stage then some p' else t.stages_progress s }

/-- `ProgressTracker.complete_stage` (progress_service.py:127): force
`current = total` and rerun `__post_init__`; missing stages are left
untouched. -/
def complete_stage (t : ProgressTracker) (stage : ProgressStage)
    (message : String) : ProgressTracker :=
  match t.stages_progress stage with
  | none => t
  | some p =>
    let p' := { p with
                current := p.total
                message := message
                percentage := post_init_percentage p.total p.total p.percentage }
    { t with stages_progress := fun s =>
        if s = stage then some p' else t.stages_progress s }

/-- The percentage recorded for a stage (0 when the stage is missing). -/
def stage_percentage (t : ProgressTracker) (stage : ProgressStage) : ℚ :=
  ((t.stages_progress stage).map ProgressInfo.percentage).getD 0

/-! ## `StreamingService` (src/src/services/streaming_service.py)

A delivery records one event handed to one subscriber; `emit_event`
notifies every subscriber unless the session is inactive, in which case
it returns without constructing an event.  Subscribers are identified by
numbers (callbacks have no observable identity beyond list membership);
an observer exception is caught in the source and does not affect
delivery to the others, so deliveries are exactly one per subscriber. -/

/-- `StreamEventType` (streaming_service.py:16). -/
inductive StreamEventType
  | progress
  | status
  | error
  | result
  | heartbeat
  | complete
deriving DecidableEq, Repr

/-- The modelled state of a `StreamingService` (streaming_service.py:40). -/
structure StreamingService where
  session_id : String := ""
  subscribers : List Nat := []
  is_active : Bool := true
deriving DecidableEq, Repr

/-- One event delivered to one subscriber. -/
structure Delivery where
  subscriber : Nat
  event_type : StreamEventType
deriving DecidableEq, Repr

/-- `StreamingService.emit_event` (streaming_service.py:61): drop
silently when inactive, else deliver to every subscriber in order. -/
def emit_event (s : StreamingService) (t : StreamEventType) :
    StreamingService × List Delivery :=
  if !s.is_active then (s, [])
  else (s, s.subscribers.map (fun sub => { subscriber := sub, event_type := t }))

/-- `StreamingService.complete` (streaming_service.py:139): emit the
completion event, then flip the session inactive. -/
def stream_complete (s : StreamingService) : StreamingService × List Delivery :=
  let r := emit_event s StreamEventType.complete
  ({ r.1 with is_active := false }, r.2)

/-- The operations a caller can perform on a streaming session.  The
convenience emitters (`emit_progress`, `emit_status`, `emit_error`,
`emit_result`, `emit_heartbeat`) all delegate to `emit_event` with the
corresponding type, so they are `emit` here. -/
inductive StreamOp
  | subscribe (id : Nat)
  | unsubscribe (id : Nat)
  | emit (t : StreamEventType)
  | complete
deriving DecidableEq, Repr

/-- One operation on a streaming session and the deliveries it causes. -/
def stream_step (s : StreamingService) : StreamOp → StreamingService × List Delivery
  | StreamOp.subscribe i => ({ s with subscribers := s.subscribers ++ [i] }, [])
  | StreamOp.unsubscribe i => ({ s with subscribers := s.subscribers.erase i }, [])
  | StreamOp.emit t => emit_event s t
  | StreamOp.complete => stream_complete s

/-- Run a sequence of operations, concatenating all deliveries. -/
def stream_run (s : StreamingService) : List StreamOp → StreamingService × List Delivery
  | [] => (s, [])
  | op :: ops =>
    let r := stream_step s op
    let r2 := stream_run r.1 ops
    (r2.1, r.2 ++ r2.2)

/-! ## Concrete fixtures used by individual claims -/

/-- The hybrid-scoring example item: vector similarity 0.85, candidate
with skills "java" and 5 years of experience (cf. the repository's
`test_hybrid_matching_success`). -/
def hybridItem : Item :=
  { id := some "C001"
    point_id := some "uuid-001"
    name := some "张三"
    similarity_score := some (85 / 100)
    cand := { skills := "java", experience_years := "5年" } }

/-- A project whose business score against `hybridItem`'s candidate is
exactly 75 (skill 40 + experience 30 + other 5). -/
def hybridProject : Project :=
  { tech_requirements := "java 3年以上", work_style := "现场" }

/-- A state holding exactly the hybrid example item. -/
def hybridState : MatchState :=
  { prefiltered_items := [hybridItem], project_info := some hybridProject }

/-- A state with three (empty) prefiltered items, for the relevance
fallback. -/
def aiFallbackState : MatchState :=
  { prefiltered_items := [{ id := some "C001" }, { id := some "C002" }, { id := some "C003" }] }

/-- Eleven hard-filtered items for the prefilter cap counterexample. -/
def prefilterState11 : MatchState :=
  { hard_filtered_items := List.replicate 11 {} }

/-- A search oracle returning a fixed result list. -/
def searchConst (rs : List Item) : String → Nat → ℚ → Except Unit (List Item) :=
  fun _ _ _ => Except.ok rs

/-- A search oracle that always fails. -/
def searchFail : String → Nat → ℚ → Except Unit (List Item) :=
  fun _ _ _ => Except.error ()

/-- A two-element state for the prefilter witness. -/
def prefilterState2 : MatchState :=
  { query := "python"
    hard_filtered_items := [{ id := some "C001" }, { id := some "C002" }] }

/-- Vector-search results overlapping `prefilterState2` in exactly one
identifier. -/
def searchResults2 : List Item :=
  [{ id := some "C001", similarity_score := some (9 / 10) },
   { id := some "C003", similarity_score := some (8 / 10) }]

/-! ## Helper lemmas -/

theorem length_filter_le_of_imp {α : Type} (l : List α) (p q : α → Bool)
    (h : ∀ a, p a = true → q a = true) :
    (l.filter p).length ≤ (l.filter q).length := by
  induction l with
  | nil => simp
  | cons a t ih =>
    by_cases hp : p a = true
    · simp [List.filter, hp, h a hp]; omega
    · simp only [List.filter, Bool.not_eq_true] at hp ⊢
      rw [hp]
      by_cases hq : q a = true
      · simp [hq]; omega
      · simp only [Bool.not_eq_true] at hq
        rw [hq]
        exact ih

theorem matchedCategories_le (cs pr : String) :
    matchedCategories cs pr ≤ requiredCategories pr := by
  unfold matchedCategories requiredCategories
  exact length_filter_le_of_imp _ _ _ (fun kv h => by
    simp only [Bool.and_eq_true] at h
    exact h.1)

theorem floor_div_mul40 (m r : ℕ) :
    (⌊(m : ℚ) / (r : ℚ) * 40⌋).toNat = m * 40 / r := by
  rw [Int.floor_toNat, div_mul_eq_mul_div]
  have h : (m : ℚ) * 40 = ((m * 40 : ℕ) : ℚ) := by push_cast; ring
  rw [h, Nat.floor_div_eq_div]

theorem floor_div_mul20 (m r : ℕ) :
    (⌊(m : ℚ) / (r : ℚ) * 20⌋).toNat = m * 20 / r := by
  rw [Int.floor_toNat, div_mul_eq_mul_div]
  have h : (m : ℚ) * 20 = ((m * 20 : ℕ) : ℚ) := by push_cast; ring
  rw [h, Nat.floor_div_eq_div]

theorem toNat_max_zero (x : Int) : (max 0 x).toNat = x.toNat := by
  omega

theorem exp_cmp_eval (cy ry : ℕ) :
    ((cy : ℚ) ≥ (ry : ℚ) * 3 / 2) ↔ ry * 3 ≤ cy * 2 := by
  rw [ge_iff_le, div_le_iff₀ (by norm_num : (0 : ℚ) < 2)]
  exact_mod_cast Iff.rfl

/-- Evaluation form of the skill score: the exact-rational floor equals
natural division. -/
theorem calculate_skill_score_eval (cs pr : String) :
    calculate_skill_score cs pr =
      if cs = "" || pr = "" then 0
      else if requiredCategories (lowerStr pr) = 0 then 20
      else min 40 (matchedCategories (lowerStr cs) (lowerStr pr) * 40
        / requiredCategories (lowerStr pr)) := by
  simp only [calculate_skill_score]
  split_ifs with h1 h2
  · rfl
  · rfl
  · rw [floor_div_mul40]

/-- Evaluation form of the experience score: rational comparisons and
floors replaced by integer arithmetic. -/
theorem calculate_experience_score_eval (ce pr : String) :
    calculate_experience_score ce pr =
      (if extract_required_experience pr = 0 then 15
       else if extract_required_experience pr ≤ extract_experience_years ce then
         (if extract_required_experience pr * 3 ≤ extract_experience_years ce * 2
          then 30 else 25)
       else extract_experience_years ce * 20 / extract_required_experience pr) := by
  simp only [calculate_experience_score, ge_iff_le, exp_cmp_eval]
  split_ifs with h1 h2 h3
  · rfl
  · rfl
  · rfl
  · rw [toNat_max_zero, floor_div_mul20]

theorem skill_score_le_40 (cs pr : String) : calculate_skill_score cs pr ≤ 40 := by
  rw [calculate_skill_score_eval]
  split_ifs with h1 h2
  · omega
  · omega
  · exact Nat.min_le_left _ _

theorem experience_score_le_30 (ce pr : String) :
    calculate_experience_score ce pr ≤ 30 := by
  rw [calculate_experience_score_eval]
  split_ifs with h1 h2 h3
  · omega
  · omega
  · omega
  · have hr : extract_required_experience pr ≠ 0 := h1
    have := Nat.div_le_div_right (c := extract_required_experience pr)
      (le_of_lt (by
        have hlt : extract_experience_years ce < extract_required_experience pr := by omega
        calc extract_experience_years ce * 20
            < extract_required_experience pr * 20 := by omega
          _ ≤ extract_required_experience pr * 20 := le_rfl))
    calc extract_experience_years ce * 20 / extract_required_experience pr
        ≤ extract_required_experience pr * 20 / extract_required_experience pr := this
      _ = 20 := by
          rw [Nat.mul_div_cancel_left]
          omega
      _ ≤ 30 := by omega

theorem other_factors_le_30 (c : Candidate) (p : Project) :
    calculate_other_factors_score c p ≤ 30 := by
  unfold calculate_other_factors_score
  exact Nat.min_le_left _ _

/-- C1.  For every candidate record and project record the total business
score lies within 0..100 and the three sub-scores respect their caps
40/30/30 (sub-scores and total are values of `Nat`, hence non-negative). -/
theorem business_score_bounds (c : Candidate) (p : Project) :
    calculate_skill_score c.skills p.tech_requirements ≤ 40 ∧
    calculate_experience_score c.experience_years p.tech_requirements ≤ 30 ∧
    calculate_other_factors_score c p ≤ 30 ∧
    calculate_business_score c p ≤ 100 := by
  refine ⟨skill_score_le_40 _ _, experience_score_le_30 _ _, other_factors_le_30 _ _, ?_⟩
  unfold calculate_business_score
  have h1 := skill_score_le_40 c.skills p.tech_requirements
  have h2 := experience_score_le_30 c.experience_years p.tech_requirements
  have h3 := other_factors_le_30 c p
  omega

/-- C6 counterexample.  A candidate with an absent skills attribute is
rejected when a skill is required, and one with an absent experience
attribute is rejected when a minimum experience is required — the
candidate-side absence does not skip those predicates, contradicting the
claim that a predicate is skipped whenever either side of its comparison
is absent. -/
theorem hard_filters_candidate_side_cex :
    passes_hard_filters {} { required_skills := ["java"] } = false ∧
    passes_hard_filters {} { min_experience_years := some 3 } = false := by
  constructor
  · decide
  · decide

/-- C6 (amended).  The skip semantics that actually holds, per predicate
and independently of the other requirements: the location predicate is
skipped whenever either of its sides is absent, the minimum-experience
predicate whenever its requirement value is absent or zero, the salary
predicate whenever either of its sides is absent, and the
required-skills predicate whenever no skills are required — each under
only its own condition; and when all four conditions hold the whole
hard filter passes.  (An absent candidate-side experience or skills
attribute does not skip its predicate: it is parsed as 0 years,
respectively the empty skills text.) -/
theorem hard_filters_skip_semantics (c : Candidate) (r : Requirements) :
    ((r.location = "" ∨ c.location_preference = "") →
      passes_location c r = true) ∧
    ((r.min_experience_years = none ∨ r.min_experience_years = some 0) →
      passes_experience c r = true) ∧
    ((r.salary_range = "" ∨ c.expected_salary = "") →
      passes_salary c r = true) ∧
    (r.required_skills = [] → passes_skills c r = true) ∧
    ((r.location = "" ∨ c.location_preference = "") →
      (r.min_experience_years = none ∨ r.min_experience_years = some 0) →
      (r.salary_range = "" ∨ c.expected_salary = "") →
      r.required_skills = [] →
      passes_hard_filters c r = true) := by
  have h1 : (r.location = "" ∨ c.location_preference = "") →
      passes_location c r = true := by
    intro hloc
    unfold passes_location
    rcases hloc with h | h <;> simp [h, lowerStr]
  have h2 : (r.min_experience_years = none ∨ r.min_experience_years = some 0) →
      passes_experience c r = true := by
    intro hexp
    unfold passes_experience
    rcases hexp with h | h <;> simp [h]
  have h3 : (r.salary_range = "" ∨ c.expected_salary = "") →
      passes_salary c r = true := by
    intro hsal
    unfold passes_salary
    rcases hsal with h | h <;> simp [h]
  have h4 : r.required_skills = [] → passes_skills c r = true := by
    intro hskill
    unfold passes_skills
    simp [hskill]
  refine ⟨h1, h2, h3, h4, fun hloc hexp hsal hskill => ?_⟩
  unfold passes_hard_filters
  rw [h1 hloc, h2 hexp, h3 hsal, h4 hskill]
  rfl

/-- Witness for C6's amended theorem.  The first three facts exercise the
skipped predicates while the *other* requirements are present (location,
salary range and required skills all set, candidate side absent; minimum
experience absent): each predicate passes under its own condition alone.
The fourth exercises the skills skip while location and experience
requirements are present, and the last the all-skipped full pass. -/
theorem hard_filters_skip_semantics_witness :
    passes_location { skills := "java" }
      { location := "北京", salary_range := "10k-20k", required_skills := ["java"] }
      = true ∧
    passes_experience { skills := "java" }
      { location := "北京", salary_range := "10k-20k", required_skills := ["java"] }
      = true ∧
    passes_salary { skills := "java" }
      { location := "北京", salary_range := "10k-20k", required_skills := ["java"] }
      = true ∧
    passes_skills {}
      { location := "北京", min_experience_years := some 3 } = true ∧
    passes_hard_filters { skills := "python" } { location := "北京" } = true :=
  ⟨(hard_filters_skip_semantics { skills := "java" }
      { location := "北京", salary_range := "10k-20k", required_skills := ["java"] }).1
      (Or.inr rfl),
   (hard_filters_skip_semantics { skills := "java" }
      { location := "北京", salary_range := "10k-20k", required_skills := ["java"] }).2.1
      (Or.inl rfl),
   (hard_filters_skip_semantics { skills := "java" }
      { location := "北京", salary_range := "10k-20k", required_skills := ["java"] }).2.2.1
      (Or.inr rfl),
   (hard_filters_skip_semantics {}
      { location := "北京", min_experience_years := some 3 }).2.2.2.1 rfl,
   (hard_filters_skip_semantics { skills := "python" } { location := "北京" }).2.2.2.2
      (Or.inr rfl) (Or.inl rfl) (Or.inl rfl) rfl⟩

/-- C7 counterexample.  With candidate skills "java python" and
requirements "java python mysql" the required categories are
java/python/database (3) and the matched ones java/python (2); the code
truncates `40 * 2 / 3` to 26, while rounding — as the claim states —
would give 27. -/
theorem skill_score_not_rounded_cex :
    calculate_skill_score "java python" "java python mysql" = 26 ∧
    matchedCategories (lowerStr "java python") (lowerStr "java python mysql") = 2 ∧
    requiredCategories (lowerStr "java python mysql") = 3 ∧
    round ((40 : ℚ) * 2 / 3) = 27 ∧
    calculate_skill_score "" "java" = 0 := by
  refine ⟨?_, by decide, by decide, ?_, by decide⟩
  · rw [calculate_skill_score_eval]
    decide
  · rw [round_eq]
    norm_num

/-- C7 (amended).  For non-empty skills and requirements texts the skill
sub-score is the floor (truncation), not the rounding, of
`40 * matchedCategories / requiredCategories`; the flat 20 applies only
when the non-empty requirements mention no recognizable category; and an
empty string on either side yields 0 rather than 20. -/
theorem skill_score_truncation (cs pr : String) (h1 : cs ≠ "") (h2 : pr ≠ "") :
    (requiredCategories (lowerStr pr) ≠ 0 →
      calculate_skill_score cs pr
        = Int.toNat ⌊(matchedCategories (lowerStr cs) (lowerStr pr) : ℚ)
            / (requiredCategories (lowerStr pr) : ℚ) * 40⌋) ∧
    (requiredCategories (lowerStr pr) = 0 → calculate_skill_score cs pr = 20) := by
  constructor
  · intro hreq
    rw [calculate_skill_score_eval, floor_div_mul40]
    have hle : matchedCategories (lowerStr cs) (lowerStr pr)
        ≤ requiredCategories (lowerStr pr) := matchedCategories_le _ _
    have hcap : matchedCategories (lowerStr cs) (lowerStr pr) * 40
        / requiredCategories (lowerStr pr) ≤ 40 := by
      calc matchedCategories (lowerStr cs) (lowerStr pr) * 40
            / requiredCategories (lowerStr pr)
          ≤ requiredCategories (lowerStr pr) * 40
            / requiredCategories (lowerStr pr) :=
            Nat.div_le_div_right (by omega)
        _ = 40 := by rw [Nat.mul_div_cancel_left]; omega
    simp [h1, h2, hreq, Nat.min_eq_right hcap]
  · intro hreq
    rw [calculate_skill_score_eval]
    simp [h1, h2, hreq]

theorem round2_mono {a b : ℚ} (h : a ≤ b) : round2 a ≤ round2 b := by
  unfold round2
  have h1 : round (a * 100) ≤ round (b * 100) := by
    rw [round_eq, round_eq]
    exact Int.floor_le_floor (by linarith)
  have h2 : ((round (a * 100) : ℤ) : ℚ) ≤ ((round (b * 100) : ℤ) : ℚ) := by
    exact_mod_cast h1
  linarith

theorem post_init_percentage_le (c1 c2 T : Int) (old : ℚ) (h : c1 ≤ c2) :
    post_init_percentage c1 T old
      ≤ post_init_percentage c2 T (post_init_percentage c1 T old) := by
  unfold post_init_percentage
  split_ifs with hT
  · apply round2_mono
    have hT' : (0 : ℚ) < (T : ℚ) := by exact_mod_cast hT
    have hcc : (c1 : ℚ) ≤ (c2 : ℚ) := by exact_mod_cast h
    gcongr
  · exact le_rfl

/-- C8 counterexample.  `update_progress` writes the caller's value into
`current` with no clamping, so the percentage of a fixed stage can
decrease across successive calls (50 → 30 here); and `complete_stage` on
a stage started with `total = 0` leaves the percentage at 0, not 100,
because `__post_init__` only recomputes it when `total > 0`. -/
theorem progress_percentage_cex :
    stage_percentage (update_progress
        (start_stage {} ProgressStage.matching_analysis 10 "")
        ProgressStage.matching_analysis 5 "") ProgressStage.matching_analysis = 50 ∧
    stage_percentage (update_progress (update_progress
        (start_stage {} ProgressStage.matching_analysis 10 "")
        ProgressStage.matching_analysis 5 "")
        ProgressStage.matching_analysis 3 "") ProgressStage.matching_analysis = 30 ∧
    stage_percentage (complete_stage
        (start_stage {} ProgressStage.result_generation 0 "")
        ProgressStage.result_generation "阶段完成") ProgressStage.result_generation = 0 := by
  refine ⟨?_, ?_, ?_⟩ <;>
    simp [stage_percentage, update_progress, start_stage, complete_stage,
      mkProgressInfo, post_init_percentage, round2, round_eq] <;>
    norm_num

/-- C8 (amended).  For a fixed, already-started stage: across successive
`update_progress` calls whose reported `current` values are
non-decreasing, the recorded percentage is non-decreasing; and after
`complete_stage` the percentage equals exactly 100 provided the stage's
`total` is positive (the claim's unconditional monotonicity fails because
`update_progress` accepts any `current`, and the exact-100 part fails for
`total = 0`). -/
theorem progress_percentage_monotone_complete (t : ProgressTracker)
    (stage : ProgressStage) (p : ProgressInfo)
    (hp : t.stages_progress stage = some p)
    (c1 c2 : Int) (m1 m2 : String) (hc : c1 ≤ c2) :
    stage_percentage (update_progress t stage c1 m1) stage
      ≤ stage_percentage
          (update_progress (update_progress t stage c1 m1) stage c2 m2) stage ∧
    (0 < p.total →
      stage_percentage (complete_stage t stage "阶段完成") stage = 100) := by
  constructor
  · simp [stage_percentage, update_progress, hp]
    exact post_init_percentage_le c1 c2 p.total p.percentage hc
  · intro hT
    simp [stage_percentage, complete_stage, hp]
    have hT' : ((p.total : ℚ)) ≠ 0 := by
      have : (0 : ℚ) < (p.total : ℚ) := by exact_mod_cast hT
      linarith
    rw [post_init_percentage, if_pos hT, div_self hT', one_mul, round2]
    norm_num

/-- Witness for C8's amended theorem on a concrete tracker (total 10,
updates 2 then 5, then completion). -/
theorem progress_percentage_monotone_complete_witness :
    stage_percentage (update_progress
        (start_stage {} ProgressStage.initialization 10 "")
        ProgressStage.initialization 2 "") ProgressStage.initialization
      ≤ stage_percentage (update_progress (update_progress
          (start_stage {} ProgressStage.initialization 10 "")
          ProgressStage.initialization 2 "")
          ProgressStage.initialization 5 "") ProgressStage.initialization ∧
    stage_percentage (complete_stage
        (start_stage {} ProgressStage.initialization 10 "")
        ProgressStage.initialization "阶段完成") ProgressStage.initialization = 100 :=
  ⟨(progress_percentage_monotone_complete
      (start_stage {} ProgressStage.initialization 10 "")
      ProgressStage.initialization
      (mkProgressInfo ProgressStage.initialization 0 10 "")
      rfl 2 5 "" "" (by decide)).1,
   (progress_percentage_monotone_complete
      (start_stage {} ProgressStage.initialization 10 "")
      ProgressStage.initialization
      (mkProgressInfo ProgressStage.initialization 0 10 "")
      rfl 2 5 "" "" (by decide)).2 (by decide)⟩

/-- C10.  When `update_progress` hits a stage that was never started, the
tracker auto-creates the stage with the reported value as its `total` and
`current` reset to 0, so the recorded progress is 0 (percentage 0) rather
than the reported value; the session's stage counter is bumped as by
`start_stage`. -/
theorem update_progress_missing_stage (t : ProgressTracker)
    (stage : ProgressStage) (current : Int) (message : String)
    (h : t.stages_progress stage = none) :
    ((update_progress t stage current message).stages_progress stage).map
        ProgressInfo.current = some 0 ∧
    ((update_progress t stage current message).stages_progress stage).map
        ProgressInfo.total = some current ∧
    stage_percentage (update_progress t stage current message) stage = 0 ∧
    (update_progress t stage current message).current_stage
      = t.current_stage + 1 := by
  have h1 : (update_progress t stage current message).stages_progress stage
      = some (mkProgressInfo stage 0 current message) := by
    simp [update_progress, h, start_stage]
  refine ⟨by simp [h1, mkProgressInfo], by simp [h1, mkProgressInfo], ?_, ?_⟩
  · simp [stage_percentage, h1, mkProgressInfo, post_init_percentage, round2]
  · simp [update_progress, h, start_stage]

/-- Witness for C10 at a fresh tracker and reported progress 7. -/
theorem update_progress_missing_stage_witness :
    ((update_progress {} ProgressStage.vector_generation 7 "msg").stages_progress
        ProgressStage.vector_generation).map ProgressInfo.current = some 0 ∧
    ((update_progress {} ProgressStage.vector_generation 7 "msg").stages_progress
        ProgressStage.vector_generation).map ProgressInfo.total = some 7 ∧
    stage_percentage (update_progress {} ProgressStage.vector_generation 7 "msg")
        ProgressStage.vector_generation = 0 ∧
    (update_progress {} ProgressStage.vector_generation 7 "msg").current_stage
      = ({} : ProgressTracker).current_stage + 1 :=
  update_progress_missing_stage {} ProgressStage.vector_generation 7 "msg" rfl

theorem stream_run_inactive :
    ∀ (ops : List StreamOp) (s : StreamingService), s.is_active = false →
      (stream_run s ops).2 = [] ∧ (stream_run s ops).1.is_active = false := by
  intro ops
  induction ops with
  | nil => intro s h; simpa [stream_run]
  | cons op ops ih =>
    intro s h
    have hstep : (stream_step s op).2 = [] ∧ (stream_step s op).1.is_active = false := by
      cases op <;> simp [stream_step, emit_event, stream_complete, h]
    have hrest := ih (stream_step s op).1 hstep.2
    simp only [stream_run]
    exact ⟨by rw [hstep.1, hrest.1]; rfl, hrest.2⟩

/-- C9.  After `complete` the session is inactive, and no sequence of
subsequent operations (emits of any type, further completions,
subscriptions) delivers any event to any subscriber — the emits are
silently dropped and the session stays inactive, so the
Active → Completed transition and its completion event happen at most
once. -/
theorem stream_complete_terminal (s : StreamingService) (ops : List StreamOp) :
    (stream_complete s).1.is_active = false ∧
    (stream_run (stream_complete s).1 ops).2 = [] ∧
    (stream_run (stream_complete s).1 ops).1.is_active = false := by
  have hinact : (stream_complete s).1.is_active = false := rfl
  exact ⟨hinact, (stream_run_inactive ops _ hinact).1,
    (stream_run_inactive ops _ hinact).2⟩

/-- C2 (code behavior at the failing input).  The claim says both batch
variants keep `results[i]` aligned with `items[i]` even under
out-of-order completion.  The async variant does (`asyncio.gather`
preserves submission order), but the sync variant appends results in
`as_completed` order: on items `[0, 1]` with the identity processor and
completion order `[1, 0]` it returns `[some 1, some 0]` instead of
`[some 0, some 1]` (lengths are still preserved). -/
theorem process_batch_sync_completion_order_eval :
    process_batch_sync (fun n : Nat => some n) 50 (fun _ => [1, 0]) [0, 1]
      = [some 1, some 0] ∧
    process_batch_async (fun n : Nat => some n) 50 [0, 1]
      = [some 0, some 1] ∧
    (process_batch_sync (fun n : Nat => some n) 50 (fun _ => [1, 0]) [0, 1]).length
      = 2 ∧
    process_batch_sync (fun n : Nat => some n) 50 (fun _ => [0, 1]) [0, 1]
      = [some 0, some 1] := by
  refine ⟨by decide, by decide, by decide, by decide⟩

/-- C4 counterexample.  With vector search disabled,
`vector_prefilter_candidates` passes the hard-filtered list through with
no cap: 11 hard-filtered items yield 11 prefiltered items, contradicting
the claimed "at most 10 in every branch". -/
theorem vector_prefilter_disabled_uncapped_cex :
    (vector_prefilter_candidates false (searchConst []) prefilterState11).prefiltered_items.length
      = 11 := by
  decide

/-- C4 (amended).  The branch behavior that actually holds: with vector
search disabled the hard-filtered list is passed through unchanged (and
uncapped); with vector search enabled every branch outputs at most 10
items — the empty-query and search-failure branches return the first 10
hard-filtered items, and the success branch returns the search results
(limit 20, threshold 0.6) whose identifiers appear among the
hard-filtered identifiers, capped at 10. -/
theorem vector_prefilter_branch_spec
    (search : String → Nat → ℚ → Except Unit (List Item)) (st : MatchState) :
    ((vector_prefilter_candidates false search st).prefiltered_items
        = st.hard_filtered_items) ∧
    ((vector_prefilter_candidates true search st).prefiltered_items.length ≤ 10) ∧
    (st.query = "" →
      (vector_prefilter_candidates true search st).prefiltered_items
        = st.hard_filtered_items.take 10) ∧
    (st.query ≠ "" → search st.query 20 (6 / 10) = Except.error () →
      (vector_prefilter_candidates true search st).prefiltered_items
        = st.hard_filtered_items.take 10) ∧
    (∀ rs, st.query ≠ "" → search st.query 20 (6 / 10) = Except.ok rs →
      (vector_prefilter_candidates true search st).prefiltered_items
        = (rs.filter (fun r =>
            (st.hard_filtered_items.map itemKey).contains (itemKey r))).take 10) := by
  refine ⟨by simp [vector_prefilter_candidates], ?_, ?_, ?_, ?_⟩
  · unfold vector_prefilter_candidates
    by_cases hq : st.query = ""
    · simp only [hq, Bool.not_true, Bool.false_eq_true, if_false, if_pos rfl]
      simp [List.length_take]
    · simp only [hq, Bool.not_true, Bool.false_eq_true, if_false, if_neg hq]
      cases hs : search st.query 20 (6 / 10) with
      | error e => simp [List.length_take]
      | ok rs => simp [List.length_take]
  · intro hq
    simp [vector_prefilter_candidates, hq]
  · intro hq hs
    simp [vector_prefilter_candidates, hq, hs]
  · intro rs hq hs
    simp [vector_prefilter_candidates, hq, hs]

/-- Witness for C4's amended theorem: the success branch intersects with
the hard-filtered identifiers, the failure branch degrades to the first
10 hard-filtered items. -/
theorem vector_prefilter_branch_spec_witness :
    (vector_prefilter_candidates true (searchConst searchResults2)
        prefilterState2).prefiltered_items
      = (searchResults2.filter (fun r =>
          (prefilterState2.hard_filtered_items.map itemKey).contains
            (itemKey r))).take 10 ∧
    (vector_prefilter_candidates true searchFail
        prefilterState2).prefiltered_items
      = prefilterState2.hard_filtered_items.take 10 :=
  ⟨(vector_prefilter_branch_spec (searchConst searchResults2)
      prefilterState2).2.2.2.2 searchResults2 (by decide) rfl,
   (vector_prefilter_branch_spec searchFail prefilterState2).2.2.2.1
      (by decide) rfl⟩

theorem fallback_reason (items : List Item) :
    ∀ m ∈ fallback_matches items, m.reason = "系统备用匹配结果" := by
  intro m hm
  unfold fallback_matches at hm
  simp only [List.mem_map] at hm
  obtain ⟨p, _, rfl⟩ := hm
  rfl

theorem map_comp_fst_zip {α β γ : Type} (f : α → γ) (r : List α) (l : List β)
    (h : r.length ≤ l.length) : (r.zip l).map (f ∘ Prod.fst) = r.map f := by
  rw [← List.map_map, List.map_fst_zip _ _ h]

theorem map_comp_snd_enum {α γ : Type} (g : α → γ) (l : List α) :
    (l.enum).map (g ∘ Prod.snd) = l.map g := by
  rw [← List.map_map, List.enum_map_snd]

theorem fallback_scores (items : List Item) :
    (fallback_matches items).map (fun m => m.score)
      = (List.range (min 3 items.length)).map (fun i : Nat => 60 - (i : Int) * 5) := by
  unfold fallback_matches
  rw [List.map_map]
  have hcomp : ((fun m : MatchResult => m.score) ∘ (fun p : Nat × Item =>
      ({ id := p.2.id.getD ("fallback_" ++ toString p.1)
         name := (p.2.name.orElse (fun _ => p.2.title)).getD "未知"
         score := 60 - (p.1 : Int) * 5
         reason := "系统备用匹配结果" } : MatchResult)))
      = (fun i : Nat => 60 - (i : Int) * 5) ∘ Prod.fst := by
    funext p
    rfl
  rw [hcomp, List.enum_eq_zip_range, map_comp_fst_zip _ _ _ (by simp),
    List.length_take]

theorem fallback_names (items : List Item) :
    (fallback_matches items).map (fun m => m.name)
      = (items.take 3).map
          (fun i => (i.name.orElse (fun _ => i.title)).getD "未知") := by
  unfold fallback_matches
  rw [List.map_map]
  have hcomp : ((fun m : MatchResult => m.name) ∘ (fun p : Nat × Item =>
      ({ id := p.2.id.getD ("fallback_" ++ toString p.1)
         name := (p.2.name.orElse (fun _ => p.2.title)).getD "未知"
         score := 60 - (p.1 : Int) * 5
         reason := "系统备用匹配结果" } : MatchResult)))
      = (fun i : Item => (i.name.orElse (fun _ => i.title)).getD "未知")
          ∘ Prod.snd := by
    funext p
    rfl
  rw [hcomp, map_comp_snd_enum]

/-- C5.  When all three relevance-service attempts fail, `ai_matching`
makes exactly `max_retries = 3` attempts and falls back to the first 3
prefiltered items in their original order, with the strictly decreasing
scores 60, 55, 50 and the fixed fallback reason string. -/
theorem ai_matching_retries_then_fallback
    (oracle : Nat → Option (List MatchResult)) (st : MatchState)
    (h0 : oracle 0 = none) (h1 : oracle 1 = none) (h2 : oracle 2 = none)
    (hne : ¬ st.prefiltered_items = []) :
    (ai_matching oracle st).2 = 3 ∧
    (ai_matching oracle st).1.match_results
      = fallback_matches st.prefiltered_items ∧
    (ai_matching oracle st).1.match_results.map (fun m => m.score)
      = (List.range (min 3 st.prefiltered_items.length)).map
          (fun i : Nat => 60 - (i : Int) * 5) ∧
    (ai_matching oracle st).1.match_results.map (fun m => m.name)
      = (st.prefiltered_items.take 3).map
          (fun i => (i.name.orElse (fun _ => i.title)).getD "未知") ∧
    ∀ m ∈ (ai_matching oracle st).1.match_results,
      m.reason = "系统备用匹配结果" := by
  have hmain : ai_matching oracle st
      = ({ st with
            errors := st.errors ++ ["AI匹配失败"]
            match_results := fallback_matches st.prefiltered_items
            processing_log := st.processing_log ++ ["使用备用匹配结果"] }, 3) := by
    unfold ai_matching
    rw [if_neg hne]
    show ai_matching_go oracle st 0 2 = _
    simp only [ai_matching_go, h0, h1, h2]
  rw [hmain]
  exact ⟨rfl, rfl, fallback_scores _, fallback_names _, fallback_reason _⟩

/-- Witness for C5 on a concrete three-item state with an always-failing
relevance oracle. -/
theorem ai_matching_retries_then_fallback_witness :
    (ai_matching (fun _ => none) aiFallbackState).2 = 3 ∧
    (ai_matching (fun _ => none) aiFallbackState).1.match_results
      = fallback_matches aiFallbackState.prefiltered_items ∧
    (ai_matching (fun _ => none) aiFallbackState).1.match_results.map
        (fun m => m.score)
      = (List.range (min 3 aiFallbackState.prefiltered_items.length)).map
          (fun i : Nat => 60 - (i : Int) * 5) ∧
    (ai_matching (fun _ => none) aiFallbackState).1.match_results.map
        (fun m => m.name)
      = (aiFallbackState.prefiltered_items.take 3).map
          (fun i => (i.name.orElse (fun _ => i.title)).getD "未知") ∧
    ∀ m ∈ (ai_matching (fun _ => none) aiFallbackState).1.match_results,
      m.reason = "系统备用匹配结果" :=
  ai_matching_retries_then_fallback (fun _ => none) aiFallbackState
    rfl rfl rfl (by decide)

/-- C3.  Hybrid scoring combines the three signals as
`final = vectorScore*Wv + aiScore*Wa + businessScore*Wb` with the
spec-modelled default weights (0.3, 0.4, 0.3); on the example item with
vector similarity 0.85, relevance score 80 and business score 75 the
final score is exactly 80, end to end through `hybrid_matching`. -/
theorem hybrid_combination_and_example :
    (∀ (a b : Int) (i : Item), hybrid_final_score a b i
        = hybrid_vector_score i * (3 / 10) + (a : ℚ) * (4 / 10)
          + (b : ℚ) * (3 / 10)) ∧
    MATCHING_WEIGHTS_HYBRID_VECTOR = 3 / 10 ∧
    MATCHING_WEIGHTS_HYBRID_AI = 4 / 10 ∧
    MATCHING_WEIGHTS_HYBRID_BUSINESS = 3 / 10 ∧
    calculate_business_score hybridItem.cand hybridProject = 75 ∧
    hybrid_vector_score hybridItem = 85 ∧
    hybrid_final_score 80 75 hybridItem = 80 ∧
    (hybrid_matching (fun _ => 80) hybridState).match_results.map
        (fun m => m.score) = [80] := by
  have hbiz : calculate_business_score hybridItem.cand hybridProject = 75 := by
    simp only [calculate_business_score]
    rw [calculate_skill_score_eval, calculate_experience_score_eval]
    decide
  have hvec : hybrid_vector_score hybridItem = 85 := by
    norm_num [hybrid_vector_score, hybridItem]
  have hfinal : hybrid_final_score 80 75 hybridItem = 80 := by
    rw [hybrid_final_score, hvec, MATCHING_WEIGHTS_HYBRID_VECTOR,
      MATCHING_WEIGHTS_HYBRID_AI, MATCHING_WEIGHTS_HYBRID_BUSINESS]
    norm_num
  have hlist : (hybrid_matching (fun _ => 80) hybridState).match_results
      = [hybrid_match_result (fun _ => 80) (some hybridProject) hybridItem] := by
    simp [hybrid_matching, hybridState, sortDesc, insertDesc]
  have hscore : (hybrid_match_result (fun _ => 80) (some hybridProject)
      hybridItem).score = 80 := by
    simp only [hybrid_match_result, Option.getD_some]
    rw [hbiz]
    have h75 : hybrid_final_score 80 ((75 : ℕ) : Int) hybridItem = 80 := hfinal
    rw [h75]
    norm_num [truncQ]
  refine ⟨fun a b i => rfl, rfl, rfl, rfl, hbiz, hvec, hfinal, ?_⟩
  rw [hlist, List.map_cons, List.map_nil, hscore]

/-- Witness for C7's amended theorem: one input through the truncation
branch and one through the flat-20 branch. -/
theorem skill_score_truncation_witness :
    calculate_skill_score "java python" "java python mysql"
      = Int.toNat ⌊(matchedCategories (lowerStr "java python")
          (lowerStr "java python mysql") : ℚ)
          / (requiredCategories (lowerStr "java python mysql") : ℚ) * 40⌋ ∧
    calculate_skill_score "java" "cobol" = 20 := by
  constructor
  · exact (skill_score_truncation "java python" "java python mysql"
      (by decide) (by decide)).1 (by decide)
  · exact (skill_score_truncation "java" "cobol"
      (by decide) (by decide)).2 (by decide)

end TalentMatch
